import Mathlib

/-!
Shallow embedding of the image-to-explanation pipeline of the
Context-learning-for-kids backend.

Embedded modules:
* `DynResp`    — `src/dynamic_response.py` (prompt composition and the Groq
  chat wrapper used by `app.py`; no visual facts).
* `BackendDyn` — `src/backend/dynamic_response.py` (the variant whose
  `generate_response` additionally takes a `visual_facts` mapping).
* `App`        — the request handlers of `src/app.py`.

External effects are modelled as function parameters returning `Except`:
`.error e` stands for the Python call raising an exception whose string
rendering is `e`, `.ok v` for a plain return.  Python dictionaries such as
`{"role": ..., "content": ...}` become the `Message` structure; the
`visual_facts` dict becomes an insertion-ordered association list.
-/

/-- One chat turn, the embedding of the Python dict
`{"role": r, "content": c}`. -/
structure Message where
  role : String
  content : String
deriving DecidableEq, Repr

/-- A Python value as far as `generate_response`'s `history` argument
inspects one: `isinstance(history, list)` distinguishes a list of turns from
any other JSON value. -/
inductive PyVal where
  | list (msgs : List Message)
  | nonList
deriving DecidableEq, Repr

/-- An HTTP response as the handlers shape one: a status code and a JSON
object given as an ordered list of string-valued fields. -/
structure HttpResp where
  status : Nat
  body : List (String × String)
deriving DecidableEq, Repr

/-- Python `s.replace('_', ' ')` for the one-character arguments used in the
source: every underscore becomes a space. -/
def underscoreToSpace (s : String) : String :=
  ⟨s.data.map (fun c => if c = '_' then ' ' else c)⟩

/-- Python `s.strip()`: drop whitespace from both ends. -/
def pyStrip (s : String) : String :=
  ⟨((s.data.dropWhile Char.isWhitespace).reverse.dropWhile Char.isWhitespace).reverse⟩

/-- The fixed fallback returned when `GROQ_API_KEY` is unset. -/
def noKeyMsg : String := "I couldn't reach the AI service. Please set GROQ_API_KEY."

/-- `startsWithL pat s`: the char list `s` begins with `pat`. -/
def startsWithL : List Char → List Char → Bool
  | [], _ => true
  | _ :: _, [] => false
  | p :: ps, c :: cs => (p == c) && startsWithL ps cs

/-- `containsSub pat s`: `pat` occurs as a contiguous run inside `s`. -/
def containsSub (pat : List Char) : List Char → Bool
  | [] => pat.isEmpty
  | c :: tl => startsWithL pat (c :: tl) || containsSub pat tl

/-- The question contains the substring "color" in any letter case. -/
def containsColorCI (s : String) : Bool :=
  containsSub "color".data (s.data.map Char.toLower)

namespace DynResp

/-- The system prompt of `src/dynamic_response.py`. -/
def sysPrompt : String :=
  "You are a friendly, educational tutor for kids. " ++
  "Explain concepts simply and accurately. Keep answers concise."

/-- `_chat` of `src/dynamic_response.py`.  `apiKey` is the `GROQ_API_KEY`
environment value (`none` when unset); `call` abstracts the
`requests.post` + `raise_for_status` + body parsing down to
`data["choices"][0]["message"]["content"]`, with `.error` for any exception
raised on that path.  With a missing (or empty, hence falsy) key the fixed
fallback is returned and the backend is never consulted. -/
def _chat (apiKey : Option String) (call : List Message → Except String String)
    (messages : List Message) : Except String String :=
  match apiKey with
  | none => .ok noKeyMsg
  | some k =>
    if k = "" then .ok noKeyMsg
    else (call messages).map pyStrip

/-- The message sequence `generate_response` of `src/dynamic_response.py`
builds before calling `_chat`. -/
def genMessages (object_label : String) (question : String)
    (history : Option PyVal) : List Message :=
  let base : List Message :=
    [⟨"system", sysPrompt⟩,
     ⟨"user", "The image contains: " ++ object_label ++ "."⟩]
  let base :=
    match history with
    | some (.list h) => if h.isEmpty then base else base ++ h
    | _ => base
  if question = "" then
    base ++ [⟨"user", "Teach me something interesting about it."⟩]
  else
    base ++ [⟨"user", "Question about this image: " ++ question⟩]

/-- `generate_response` of `src/dynamic_response.py`: compose the messages,
call `_chat`, and turn any raised exception into the embedded error
string. -/
def generate_response (apiKey : Option String)
    (call : List Message → Except String String)
    (object_label : String) (question : String) (history : Option PyVal) :
    String :=
  match _chat apiKey call (genMessages object_label question history) with
  | .ok s => s
  | .error e => "(AI error) " ++ e

end DynResp

namespace BackendDyn

/-- The system prompt of `src/backend/dynamic_response.py`. -/
def sysPrompt : String :=
  "You are a friendly educational tutor for kids. " ++
  "Explain simply and accurately. Prefer short, clear sentences. " ++
  "Use any provided visual facts; do NOT ask the user to describe the image."

/-- The header of the visual-facts turn. -/
def vfMarker : String := "Visual facts (precomputed): "

/-- `vf_txt` of `src/backend/dynamic_response.py`: empty when `visual_facts`
is `None`, an empty dict, or has only falsy values; otherwise the marker
followed by the non-empty facts rendered `k.replace('_',' ') + ": " + v` and
joined by `"; "`. -/
def vfText (visual_facts : Option (List (String × String))) : String :=
  match visual_facts with
  | none => ""
  | some vf =>
    if vf.isEmpty then ""
    else
      let parts := (vf.filter (fun kv => kv.2 ≠ "")).map
        (fun kv => underscoreToSpace kv.1 ++ ": " ++ kv.2)
      if parts.isEmpty then "" else vfMarker ++ String.intercalate "; " parts

/-- The message sequence `generate_response` of
`src/backend/dynamic_response.py` builds before calling `_chat`. -/
def genMessages (object_label : String) (question : String)
    (history : Option PyVal)
    (visual_facts : Option (List (String × String))) : List Message :=
  let vf_txt := vfText visual_facts
  let base : List Message :=
    [⟨"system", sysPrompt⟩,
     ⟨"user", "The image contains: " ++ object_label ++ "."⟩]
  let base := if vf_txt = "" then base else base ++ [⟨"user", vf_txt⟩]
  let base :=
    match history with
    | some (.list h) => if h.isEmpty then base else base ++ h
    | _ => base
  if question = "" then
    base ++ [⟨"user", "Teach me something interesting about it."⟩]
  else
    base ++ [⟨"user", "Question about this image: " ++ question⟩]

/-- `_chat` of `src/backend/dynamic_response.py` (same wrapper as
`DynResp._chat`). -/
def _chat (apiKey : Option String) (call : List Message → Except String String)
    (messages : List Message) : Except String String :=
  match apiKey with
  | none => .ok noKeyMsg
  | some k =>
    if k = "" then .ok noKeyMsg
    else (call messages).map pyStrip

/-- `generate_response` of `src/backend/dynamic_response.py`. -/
def generate_response (apiKey : Option String)
    (call : List Message → Except String String)
    (object_label : String) (question : String) (history : Option PyVal)
    (visual_facts : Option (List (String × String))) : String :=
  match _chat apiKey call (genMessages object_label question history visual_facts) with
  | .ok s => s
  | .error e => "(AI error) " ++ e

/-- The fixed system turn. -/
def sysTurn : Message := ⟨"system", sysPrompt⟩

/-- The synthetic user turn stating the recognized label. -/
def labelTurn (object_label : String) : Message :=
  ⟨"user", "The image contains: " ++ object_label ++ "."⟩

/-- The visual-facts segment: empty when no fact has a non-empty value,
otherwise the single visual-facts turn. -/
def vfSeg (visual_facts : Option (List (String × String))) : List Message :=
  if vfText visual_facts = "" then [] else [⟨"user", vfText visual_facts⟩]

/-- The history segment: the caller-supplied turns when `history` is a list,
nothing otherwise. -/
def histSeg (history : Option PyVal) : List Message :=
  match history with
  | some (.list h) => h
  | _ => []

/-- The final turn: the prefixed question when non-empty, the fixed default
instruction otherwise. -/
def finalTurn (question : String) : Message :=
  if question = "" then ⟨"user", "Teach me something interesting about it."⟩
  else ⟨"user", "Question about this image: " ++ question⟩

/-- A turn is the visual-facts turn when its content begins with the
marker. -/
def isVFTurn (m : Message) : Bool :=
  startsWithL vfMarker.data m.content.data

/-- The facts with a non-empty value, in mapping order. -/
def nonEmptyFacts (visual_facts : Option (List (String × String))) :
    List (String × String) :=
  (visual_facts.getD []).filter (fun kv => kv.2 ≠ "")

/-- One rendered fact: key with underscores as spaces, a colon, the value. -/
def factLine (kv : String × String) : String :=
  underscoreToSpace kv.1 ++ ": " ++ kv.2

end BackendDyn

namespace App

/-- The 400 error message for a missing upload. -/
def noFileMsg : String := "No file uploaded (field must be 'file' or 'image')."

/-- `analyze_image` of `src/app.py`.  `recognize` embeds
`recognize_image` over the uploaded bytes (`.error` = raised exception,
caught by the outer handler and turned into a 500); `file`/`image` carry the
bytes of the respective multipart field when present.  `generate_response`
is called with the label only, exactly as in the source. -/
def analyze_image (apiKey : Option String)
    (call : List Message → Except String String)
    (recognize : String → Except String String)
    (file image : Option String) : HttpResp :=
  match file.orElse (fun _ => image) with
  | none => ⟨400, [("error", noFileMsg)]⟩
  | some content =>
    match recognize content with
    | .error e => ⟨500, [("error", e)]⟩
    | .ok object_label =>
      let ai_response := DynResp.generate_response apiKey call object_label "" none
      ⟨200, [("object_label", object_label), ("ai_response", ai_response)]⟩

/-- The history-parsing block of `chat_about_image`: `json.loads` is
abstracted as `parseJson` (`.error` = parse exception, silently dropped).
An absent or empty (falsy) `history` string is never parsed. -/
def parseHistory (parseJson : String → Except String PyVal)
    (history : Option String) : Option PyVal :=
  match history with
  | none => none
  | some s =>
    if s = "" then none
    else
      match parseJson s with
      | .ok v => some v
      | .error _ => none

/-- `chat_about_image` of `src/app.py`: recognize, parse the optional
history, and hand label, question and history to `generate_response`. -/
def chat_about_image (apiKey : Option String)
    (call : List Message → Except String String)
    (recognize : String → Except String String)
    (parseJson : String → Except String PyVal)
    (file image : Option String) (question : String)
    (history : Option String) : HttpResp :=
  match file.orElse (fun _ => image) with
  | none => ⟨400, [("error", noFileMsg)]⟩
  | some content =>
    match recognize content with
    | .error e => ⟨500, [("error", e)]⟩
    | .ok object_label =>
      let parsed_history := parseHistory parseJson history
      let ai_response :=
        DynResp.generate_response apiKey call object_label question parsed_history
      ⟨200, [("object_label", object_label), ("question", question),
             ("ai_response", ai_response)]⟩

/-- Python `s.split(",", 1)`: the part before the first comma and the part
after it, or `none` when there is no comma. -/
def splitFirstComma : List Char → Option (List Char × List Char)
  | [] => none
  | c :: cs =>
    if c = ',' then some ([], cs)
    else
      match splitFirstComma cs with
      | none => none
      | some (a, b) => some (c :: a, b)

/-- The data-URL stripping of `analyze_image_base64`:
`req.image_base64.split(",", 1)[-1] if "," in req.image_base64 else
req.image_base64`. -/
def extractB64 (s : String) : String :=
  match splitFirstComma s.data with
  | some (_, rest) => ⟨rest⟩
  | none => s

/-- `analyze_image_base64` of `src/app.py`.  `b64decode` abstracts
`base64.b64decode` (`.error` = raised exception → 500); `question` and
`history` are the optional JSON body fields, with `req.history` already a
list or `None` as pydantic delivers it. -/
def analyze_image_base64 (apiKey : Option String)
    (call : List Message → Except String String)
    (recognize : String → Except String String)
    (b64decode : String → Except String String)
    (image_base64 : String) (question : Option String)
    (history : Option (List Message)) : HttpResp :=
  let b64_str := extractB64 image_base64
  match b64decode b64_str with
  | .error e => ⟨500, [("error", e)]⟩
  | .ok image_bytes =>
    match recognize image_bytes with
    | .error e => ⟨500, [("error", e)]⟩
    | .ok object_label =>
      let q := question.getD ""
      let ai_response :=
        DynResp.generate_response apiKey call object_label q (history.map .list)
      ⟨200, [("object_label", object_label), ("question", q),
             ("ai_response", ai_response)]⟩

end App

/-- A list begins with itself, whatever follows. -/
theorem startsWithL_append_self (p r : List Char) :
    startsWithL p (p ++ r) = true := by
  induction p with
  | nil => rfl
  | cons c cs ih => simp [startsWithL, ih]

/-- The last element of a list ending in a singleton. -/
theorem getLast?_append_singleton {α : Type} (l : List α) (a : α) :
    (l ++ [a]).getLast? = some a := by
  simp

namespace BackendDyn

/-- `genMessages` decomposes into the five documented segments in order. -/
theorem genMessages_decomp (object_label question : String)
    (history : Option PyVal) (visual_facts : Option (List (String × String))) :
    genMessages object_label question history visual_facts =
      [sysTurn, labelTurn object_label] ++ vfSeg visual_facts ++
        histSeg history ++ [finalTurn question] := by
  unfold genMessages vfSeg histSeg finalTurn sysTurn labelTurn
  rcases history with _ | hv
  · by_cases hvf : vfText visual_facts = "" <;>
      by_cases hq : question = "" <;>
      simp [hvf, hq]
  · rcases hv with h | _
    · by_cases hvf : vfText visual_facts = "" <;>
        by_cases hq : question = "" <;>
        rcases h with _ | ⟨m, ms⟩ <;>
        simp [hvf, hq]
    · by_cases hvf : vfText visual_facts = "" <;>
        by_cases hq : question = "" <;>
        simp [hvf, hq]

/-- `vf_txt` in terms of the non-empty facts. -/
theorem vfText_eq (visual_facts : Option (List (String × String))) :
    vfText visual_facts =
      if nonEmptyFacts visual_facts = [] then ""
      else vfMarker ++ String.intercalate "; "
        ((nonEmptyFacts visual_facts).map factLine) := by
  rcases visual_facts with _ | vf
  · rfl
  · rcases vf with _ | ⟨kv, tl⟩
    · rfl
    · rcases hfil : (kv :: tl).filter (fun kv => kv.2 ≠ "") with _ | ⟨a, as⟩ <;>
      · simp only [ne_eq, decide_not] at hfil
        simp [vfText, nonEmptyFacts, factLine, ne_eq, decide_not, hfil]
        all_goals rfl

/-- The marker followed by anything is a non-empty string. -/
theorem vfMarker_append_ne_empty (rest : String) : vfMarker ++ rest ≠ "" := by
  intro h
  have hd := congrArg String.data h
  rw [String.data_append] at hd
  have : vfMarker.data = [] := (List.append_eq_nil.mp hd).1
  simp [vfMarker] at this

/-- The system turn is not the visual-facts turn. -/
theorem isVFTurn_sysTurn : isVFTurn sysTurn = false := by decide

/-- The label turn is not the visual-facts turn, whatever the label. -/
theorem isVFTurn_labelTurn (object_label : String) :
    isVFTurn (labelTurn object_label) = false := by
  have h1 : ("The image contains: " ++ object_label ++ ".").data =
      'T' :: ("he image contains: ".data ++ object_label.data ++ ".".data) := by
    rw [String.data_append, String.data_append]
    rfl
  have h2 : vfMarker.data = 'V' :: "isual facts (precomputed): ".data := rfl
  unfold isVFTurn labelTurn
  rw [h1, h2]
  simp [startsWithL]

/-- The final turn is not the visual-facts turn, whatever the question. -/
theorem isVFTurn_finalTurn (question : String) :
    isVFTurn (finalTurn question) = false := by
  have h2 : vfMarker.data = 'V' :: "isual facts (precomputed): ".data := rfl
  unfold isVFTurn finalTurn
  by_cases hq : question = ""
  · rw [if_pos hq]
    decide
  · rw [if_neg hq]
    have h1 : ("Question about this image: " ++ question).data =
        'Q' :: ("uestion about this image: ".data ++ question.data) := by
      rw [String.data_append]
      rfl
    simp only [h1, h2]
    simp [startsWithL]

/-- The visual-facts turn itself is recognized by its marker. -/
theorem isVFTurn_marker (rest : String) :
    isVFTurn ⟨"user", vfMarker ++ rest⟩ = true := by
  unfold isVFTurn
  rw [String.data_append]
  exact startsWithL_append_self _ _

/-- The final turn always has role "user". -/
theorem finalTurn_role (question : String) : (finalTurn question).role = "user" := by
  unfold finalTurn
  split <;> rfl

end BackendDyn

namespace App

/-- `splitFirstComma` finds nothing in a comma-free list. -/
theorem splitFirstComma_of_no_comma (l : List Char) (h : ',' ∉ l) :
    splitFirstComma l = none := by
  induction l with
  | nil => rfl
  | cons c cs ih =>
    have hc : c ≠ ',' := fun hc => h (hc ▸ List.mem_cons_self c cs)
    have hcs : ',' ∉ cs := fun hm => h (List.mem_cons_of_mem c hm)
    unfold splitFirstComma
    rw [if_neg (fun hcc => hc hcc), ih hcs]

/-- `splitFirstComma` splits at the first comma. -/
theorem splitFirstComma_append (pre rest : List Char) (h : ',' ∉ pre) :
    splitFirstComma (pre ++ ',' :: rest) = some (pre, rest) := by
  induction pre with
  | nil => simp [splitFirstComma]
  | cons c cs ih =>
    have hc : c ≠ ',' := fun hc => h (hc ▸ List.mem_cons_self c cs)
    have hcs : ',' ∉ cs := fun hm => h (List.mem_cons_of_mem c hm)
    simp only [List.cons_append]
    unfold splitFirstComma
    rw [if_neg (fun hcc => hc hcc), ih hcs]

/-- Stripping the PNG data-URL header yields the raw payload: the split
happens at the header's own comma, the first of the string. -/
theorem extractB64_dataUrl (p : String) :
    extractB64 ("data:image/png;base64," ++ p) = p := by
  unfold extractB64
  have h1 : ("data:image/png;base64," ++ p).data =
      "data:image/png;base64".data ++ ',' :: p.data := by
    rw [String.data_append]
    have : "data:image/png;base64,".data = "data:image/png;base64".data ++ [','] := by
      decide
    rw [this, List.append_assoc]
    rfl
  rw [h1, splitFirstComma_append _ _ (by decide)]

/-- A comma-free payload passes through unchanged. -/
theorem extractB64_raw (p : String) (hp : ',' ∉ p.data) :
    extractB64 p = p := by
  unfold extractB64
  rw [splitFirstComma_of_no_comma _ hp]

end App

/-- C1: for every label, visual-facts mapping, history list and question,
`generate_response` composes its messages in exactly this order: the fixed
system turn, the synthetic label turn, the visual-facts turn when present,
the caller's history turns verbatim in order, and the active question (or
default instruction) turn strictly last. -/
theorem C1_message_order (object_label question : String) (h : List Message)
    (visual_facts : Option (List (String × String))) :
    BackendDyn.genMessages object_label question (some (.list h)) visual_facts =
      [BackendDyn.sysTurn, BackendDyn.labelTurn object_label] ++
        BackendDyn.vfSeg visual_facts ++ h ++
        [BackendDyn.finalTurn question] := by
  simpa [BackendDyn.histSeg] using
    BackendDyn.genMessages_decomp object_label question (some (.list h)) visual_facts

/-- C3: when no visual fact has a non-empty value the composed sequence has
no visual-facts turn; when some fact does, it has exactly one, listing all
non-empty facts as rendered key-value pairs joined by "; " (keys displayed
with underscores as spaces, as the code renders them), provided the
caller-supplied history does not itself fake a marker turn. -/
theorem C3_visual_facts_presence (object_label question : String)
    (history : Option PyVal) (visual_facts : Option (List (String × String)))
    (hh : ∀ m ∈ BackendDyn.histSeg history, BackendDyn.isVFTurn m = false) :
    (BackendDyn.nonEmptyFacts visual_facts = [] →
      (BackendDyn.genMessages object_label question history visual_facts).filter
        BackendDyn.isVFTurn = []) ∧
    (BackendDyn.nonEmptyFacts visual_facts ≠ [] →
      (BackendDyn.genMessages object_label question history visual_facts).filter
        BackendDyn.isVFTurn =
        [⟨"user", BackendDyn.vfMarker ++ String.intercalate "; "
            ((BackendDyn.nonEmptyFacts visual_facts).map BackendDyn.factLine)⟩]) := by
  have hhist : (BackendDyn.histSeg history).filter BackendDyn.isVFTurn = [] := by
    rw [List.filter_eq_nil_iff]
    intro m hm
    simp [hh m hm]
  rw [BackendDyn.genMessages_decomp]
  constructor
  · intro h0
    have hvf : BackendDyn.vfSeg visual_facts = [] := by
      unfold BackendDyn.vfSeg
      rw [BackendDyn.vfText_eq, if_pos h0]
      simp
    simp [List.filter_append, hvf, hhist, BackendDyn.isVFTurn_sysTurn,
      BackendDyn.isVFTurn_labelTurn, BackendDyn.isVFTurn_finalTurn]
  · intro h1
    have hvf : BackendDyn.vfSeg visual_facts =
        [⟨"user", BackendDyn.vfMarker ++ String.intercalate "; "
          ((BackendDyn.nonEmptyFacts visual_facts).map BackendDyn.factLine)⟩] := by
      unfold BackendDyn.vfSeg
      rw [BackendDyn.vfText_eq, if_neg h1, if_neg (BackendDyn.vfMarker_append_ne_empty _)]
    simp [List.filter_append, hvf, hhist, BackendDyn.isVFTurn_sysTurn,
      BackendDyn.isVFTurn_labelTurn, BackendDyn.isVFTurn_finalTurn,
      BackendDyn.isVFTurn_marker]

/-- Witness for C3 at a concrete mapping with one non-empty and one empty
fact. -/
theorem C3_visual_facts_presence_witness :
    (BackendDyn.genMessages "cat" "" none
        (some [("dominant_color", "red"), ("size", "")])).filter
      BackendDyn.isVFTurn =
      [⟨"user", "Visual facts (precomputed): dominant color: red"⟩] := by
  have h := (C3_visual_facts_presence "cat" "" none
      (some [("dominant_color", "red"), ("size", "")])
      (by intro m hm; simp [BackendDyn.histSeg] at hm)).2 (by decide)
  exact h.trans (by decide)

/-- C4, as stated, is false: with a non-empty question the final turn's
content is not the verbatim question but carries the fixed prefix
"Question about this image: ". -/
theorem C4_counterexample :
    ((BackendDyn.genMessages "cat" "hi" none none).getLast?.map Message.content
        = some "Question about this image: hi") ∧
      "Question about this image: hi" ≠ "hi" := by
  constructor
  · decide
  · decide

/-- C4 amended: with a non-empty question the final turn is a user turn
whose content is the fixed prefix "Question about this image: " followed by
the verbatim question; with an absent or empty question it is the fixed
default instruction. -/
theorem C4_final_turn (object_label question : String) (history : Option PyVal)
    (visual_facts : Option (List (String × String))) :
    (question ≠ "" →
      (BackendDyn.genMessages object_label question history visual_facts).getLast? =
        some ⟨"user", "Question about this image: " ++ question⟩) ∧
    (question = "" →
      (BackendDyn.genMessages object_label question history visual_facts).getLast? =
        some ⟨"user", "Teach me something interesting about it."⟩) := by
  rw [BackendDyn.genMessages_decomp, getLast?_append_singleton]
  constructor
  · intro hq
    simp [BackendDyn.finalTurn, hq]
  · intro hq
    simp [BackendDyn.finalTurn, hq]

/-- Witness for C4 at a non-empty and at an empty question. -/
theorem C4_final_turn_witness :
    ((BackendDyn.genMessages "cat" "hi" none none).getLast? =
      some ⟨"user", "Question about this image: hi"⟩) ∧
    ((BackendDyn.genMessages "cat" "" none none).getLast? =
      some ⟨"user", "Teach me something interesting about it."⟩) :=
  ⟨(C4_final_turn "cat" "hi" none none).1 (by decide),
   (C4_final_turn "cat" "" none none).2 rfl⟩

/-- C10: whatever the label, question, history value and visual facts, the
composed sequence has at least three turns, starts with a "system" turn and
ends with a "user" turn. -/
theorem C10_sequence_invariants (object_label question : String)
    (history : Option PyVal) (visual_facts : Option (List (String × String))) :
    3 ≤ (BackendDyn.genMessages object_label question history visual_facts).length ∧
    (BackendDyn.genMessages object_label question history visual_facts).head?.map
      Message.role = some "system" ∧
    (BackendDyn.genMessages object_label question history visual_facts).getLast?.map
      Message.role = some "user" := by
  rw [BackendDyn.genMessages_decomp]
  refine ⟨?_, ?_, ?_⟩
  · simp
    omega
  · rfl
  · rw [getLast?_append_singleton]
    simp [BackendDyn.finalTurn_role]

/-- C2, as stated, is false: `src/app.py` has no color special case, so on a
question containing "color" the handler's answer still comes from the
Response Generator — two backends that answer differently produce different
responses, so the generator is invoked. -/
theorem C2_counterexample :
    containsColorCI "What color is it?" = true ∧
    App.chat_about_image (some "key") (fun _ => .ok "ANSWER-ONE")
        (fun _ => .ok "cat") (fun _ => .error "bad json") (some "img") none
        "What color is it?" none ≠
      App.chat_about_image (some "key") (fun _ => .ok "ANSWER-TWO")
        (fun _ => .ok "cat") (fun _ => .error "bad json") (some "img") none
        "What color is it?" none := by
  constructor
  · decide
  · decide

/-- C2 amended: for every `/chat_about_image` request with an upload whose
recognition succeeds — including every question containing "color" in any
case — the handler invokes `generate_response` on the recognized label, the
verbatim question and the parsed history, and returns its output as
`ai_response`; there is no dominant-color bypass. -/
theorem C2_generator_always_invoked (apiKey : Option String)
    (call : List Message → Except String String)
    (recognize : String → Except String String)
    (parseJson : String → Except String PyVal)
    (content object_label question : String) (history : Option String)
    (hrec : recognize content = .ok object_label) :
    App.chat_about_image apiKey call recognize parseJson (some content) none
        question history =
      ⟨200, [("object_label", object_label), ("question", question),
             ("ai_response", DynResp.generate_response apiKey call object_label
                question (App.parseHistory parseJson history))]⟩ := by
  unfold App.chat_about_image
  simp [Option.orElse, hrec]

/-- Witness for C2's amended statement on a "color" question. -/
theorem C2_generator_always_invoked_witness :
    App.chat_about_image (some "key") (fun _ => .ok "GEN") (fun _ => .ok "cat")
        (fun _ => .error "bad json") (some "img") none "What color is it?" none =
      ⟨200, [("object_label", "cat"), ("question", "What color is it?"),
             ("ai_response", DynResp.generate_response (some "key")
                (fun _ => .ok "GEN") "cat" "What color is it?"
                (App.parseHistory (fun _ => .error "bad json") none))]⟩ :=
  C2_generator_always_invoked (some "key") (fun _ => .ok "GEN")
    (fun _ => .ok "cat") (fun _ => .error "bad json") "img" "cat"
    "What color is it?" none rfl

/-- C5: with the credential absent, `_chat` returns the exact fixed string
whatever the backend would do (so no call is attempted), and
`/analyze_image` delivers it with HTTP 200, not 500. -/
theorem C5_missing_key (call : List Message → Except String String)
    (messages : List Message) (recognize : String → Except String String)
    (content object_label : String)
    (hrec : recognize content = .ok object_label) :
    DynResp._chat none call messages = .ok noKeyMsg ∧
    App.analyze_image none call recognize (some content) none =
      ⟨200, [("object_label", object_label), ("ai_response", noKeyMsg)]⟩ := by
  constructor
  · rfl
  · unfold App.analyze_image
    simp [Option.orElse, hrec]
    rfl

/-- Witness for C5 with a backend that would fail if consulted. -/
theorem C5_missing_key_witness :
    DynResp._chat none (fun _ => .error "network down") [] = .ok noKeyMsg ∧
    App.analyze_image none (fun _ => .error "network down")
        (fun _ => .ok "cat") (some "img") none =
      ⟨200, [("object_label", "cat"), ("ai_response", noKeyMsg)]⟩ :=
  C5_missing_key (fun _ => .error "network down") [] (fun _ => .ok "cat")
    "img" "cat" rfl

/-- C6: `generate_response` is a total function into strings — it never
raises — and its result is always the missing-key fallback, the (stripped)
backend answer, or the embedded error string of the raised exception. -/
theorem C6_generation_outcomes (apiKey : Option String)
    (call : List Message → Except String String)
    (object_label question : String) (history : Option PyVal) :
    DynResp.generate_response apiKey call object_label question history =
        noKeyMsg ∨
    (∃ a, call (DynResp.genMessages object_label question history) = .ok a ∧
      DynResp.generate_response apiKey call object_label question history =
        pyStrip a) ∨
    (∃ e, call (DynResp.genMessages object_label question history) = .error e ∧
      DynResp.generate_response apiKey call object_label question history =
        "(AI error) " ++ e) := by
  rcases apiKey with _ | k
  · exact Or.inl rfl
  · by_cases hk : k = ""
    · exact Or.inl (by simp [DynResp.generate_response, DynResp._chat, hk])
    · rcases hcall : call (DynResp.genMessages object_label question history)
        with e | a
      · refine Or.inr (Or.inr ⟨e, rfl, ?_⟩)
        simp [DynResp.generate_response, DynResp._chat, hk, hcall, Except.map]
      · refine Or.inr (Or.inl ⟨a, rfl, ?_⟩)
        simp [DynResp.generate_response, DynResp._chat, hk, hcall, Except.map]

/-- C7: a history string that fails to parse as JSON is treated exactly as
an absent history; the request is not rejected and every response field is
computed unchanged. -/
theorem C7_malformed_history (apiKey : Option String)
    (call : List Message → Except String String)
    (recognize : String → Except String String)
    (parseJson : String → Except String PyVal)
    (file image : Option String) (question s e : String)
    (hfail : parseJson s = .error e) :
    App.chat_about_image apiKey call recognize parseJson file image question
        (some s) =
      App.chat_about_image apiKey call recognize parseJson file image question
        none := by
  have hparse : App.parseHistory parseJson (some s) =
      App.parseHistory parseJson none := by
    by_cases hs : s = ""
    · simp [App.parseHistory, hs]
    · simp [App.parseHistory, hs, hfail]
  unfold App.chat_about_image
  rw [hparse]

/-- Witness for C7 with a concrete failing parse. -/
theorem C7_malformed_history_witness :
    App.chat_about_image none (fun _ => .ok "hello") (fun _ => .ok "cat")
        (fun _ => .error "Expecting value") (some "img") none "hi"
        (some "not json") =
      App.chat_about_image none (fun _ => .ok "hello") (fun _ => .ok "cat")
        (fun _ => .error "Expecting value") (some "img") none "hi" none :=
  C7_malformed_history none (fun _ => .ok "hello") (fun _ => .ok "cat")
    (fun _ => .error "Expecting value") (some "img") none "hi" "not json"
    "Expecting value" rfl

/-- C8: a data-URL-prefixed and a raw base64 payload reach the decoder as
the same string, so the whole `/analyze_image_base64` response — in
particular `object_label` — is identical. -/
theorem C8_base64_roundtrip (p : String) (hp : ',' ∉ p.data)
    (apiKey : Option String) (call : List Message → Except String String)
    (recognize : String → Except String String)
    (b64decode : String → Except String String)
    (question : Option String) (history : Option (List Message)) :
    App.analyze_image_base64 apiKey call recognize b64decode
        ("data:image/png;base64," ++ p) question history =
      App.analyze_image_base64 apiKey call recognize b64decode p question
        history := by
  unfold App.analyze_image_base64
  rw [App.extractB64_dataUrl, App.extractB64_raw p hp]

/-- Witness for C8 on a concrete comma-free payload. -/
theorem C8_base64_roundtrip_witness :
    App.analyze_image_base64 none (fun _ => .ok "hello") (fun _ => .ok "cat")
        (fun s => .ok s) ("data:image/png;base64," ++ "QUJD") none none =
      App.analyze_image_base64 none (fun _ => .ok "hello") (fun _ => .ok "cat")
        (fun s => .ok s) "QUJD" none none :=
  C8_base64_roundtrip "QUJD" (by decide) none (fun _ => .ok "hello")
    (fun _ => .ok "cat") (fun s => .ok s) none none

/-- C9, as stated, is false: a successful `/analyze_image` response carries
exactly the keys `object_label` and `ai_response` — no `visual_facts`
key. -/
theorem C9_counterexample :
    (App.analyze_image none (fun _ => .ok "hello") (fun _ => .ok "cat")
        (some "img") none).status = 200 ∧
    (App.analyze_image none (fun _ => .ok "hello") (fun _ => .ok "cat")
        (some "img") none).body.map Prod.fst = ["object_label", "ai_response"] ∧
    "visual_facts" ∉
      (App.analyze_image none (fun _ => .ok "hello") (fun _ => .ok "cat")
        (some "img") none).body.map Prod.fst := by
  refine ⟨?_, ?_, ?_⟩ <;> decide

/-- C9 amended: with no upload the handler returns 400 with an `error` body;
when recognition raises it returns 500 with `{"error": <message>}`; every
successful response has status 200 and exactly the keys `object_label` and
`ai_response` (both strings). -/
theorem C9_response_shape (apiKey : Option String)
    (call : List Message → Except String String)
    (recognize : String → Except String String) (file image : Option String) :
    match file.orElse (fun _ => image) with
    | none =>
        App.analyze_image apiKey call recognize file image =
          ⟨400, [("error", App.noFileMsg)]⟩
    | some content =>
        match recognize content with
        | .error e =>
            App.analyze_image apiKey call recognize file image =
              ⟨500, [("error", e)]⟩
        | .ok _ =>
            (App.analyze_image apiKey call recognize file image).status = 200 ∧
            (App.analyze_image apiKey call recognize file image).body.map
              Prod.fst = ["object_label", "ai_response"] := by
  unfold App.analyze_image
  rcases hfe : file.orElse (fun _ => image) with _ | content
  · simp [hfe]
  · rcases hr : recognize content with e | object_label <;>
      simp [hfe, hr]
